import Mathlib

/-!
Verification development for a Redmine MCP server (TypeScript sources
`src/redmine-api.ts`, `src/index.ts`, `src/types.ts`).

The embedding below translates the runtime behaviour of the two layers:
* `RedmineClient` (request construction, response handling, query-string
  serialization, base64 decoding used by the attachment tool);
* the tool dispatcher (one handler per registered tool, each returning a
  uniform response envelope and tracing the client calls it makes).

JSON payloads produced by the remote tracker are modelled by the `Json`
type; `Json.stringify` models `JSON.stringify` (serialization to text).
-/

/-- JSON values, the dynamic payloads flowing between client and server. -/
inductive Json where
  | null : Json
  | bool (b : Bool) : Json
  | num (n : Int) : Json
  | str (s : String) : Json
  | arr (xs : List Json) : Json
  | obj (fields : List (String × Json)) : Json
deriving Repr, BEq

mutual

/-- Models `JSON.stringify` on a JSON value (serialization to text). -/
def Json.stringify : Json → String
  | .null => "null"
  | .bool true => "true"
  | .bool false => "false"
  | .num n => toString n
  | .str s => "\"" ++ s ++ "\""
  | .arr xs => "[" ++ Json.stringifyList xs ++ "]"
  | .obj fs => "\x7b" ++ Json.stringifyFields fs ++ "\x7d"

/-- Serializes the elements of a JSON array, comma separated. -/
def Json.stringifyList : List Json → String
  | [] => ""
  | [x] => Json.stringify x
  | x :: xs => Json.stringify x ++ "," ++ Json.stringifyList xs

/-- Serializes the fields of a JSON object, comma separated. -/
def Json.stringifyFields : List (String × Json) → String
  | [] => ""
  | [(k, v)] => "\"" ++ k ++ "\":" ++ Json.stringify v
  | (k, v) :: fs => "\"" ++ k ++ "\":" ++ Json.stringify v ++ "," ++ Json.stringifyFields fs

end

/-- Models JavaScript `String.prototype.endsWith` (suffix test on the
underlying character sequence). -/
def jsEndsWith (s suffix : String) : Bool :=
  suffix.data.isSuffixOf s.data

/-- `RedmineConfig` from `src/types.ts`: `url`, `apiKey` required,
`timeout` and `insecureTls` optional. -/
structure RedmineConfig where
  url : String
  apiKey : String
  timeout : Option Nat := none
  insecureTls : Option Bool := none
deriving Repr

/-- The private state of a `RedmineClient` instance
(`src/redmine-api.ts`, fields `baseUrl`, `headers`, `timeout`,
`insecureTls`). -/
structure RedmineClient where
  baseUrl : String
  headers : List (String × String)
  timeout : Nat
  insecureTls : Bool
deriving Repr

/-- The `RedmineClient` constructor (`src/redmine-api.ts`, lines 21-29):
normalizes the base URL to end with a slash, installs the API-key and
content-type headers, and applies JavaScript `||` defaulting to the
timeout (`config.timeout || 30000`, so an absent or zero timeout becomes
30000) and the TLS flag (`config.insecureTls || false`). -/
def RedmineClient.init (config : RedmineConfig) : RedmineClient :=
  { baseUrl := if jsEndsWith config.url "/" then config.url else config.url ++ "/"
    headers := [("X-Redmine-API-Key", config.apiKey), ("Content-Type", "application/json")]
    timeout := match config.timeout with
      | some t => if t = 0 then 30000 else t
      | none => 30000
    insecureTls := match config.insecureTls with
      | some b => b
      | none => false }

/-- HTTP methods used by the client (`"GET" | "POST" | "PUT"`). -/
inductive HttpMethod where
  | GET : HttpMethod
  | POST : HttpMethod
  | PUT : HttpMethod
deriving Repr, DecidableEq

/-- The `data` argument of `RedmineClient.request`: either a JSON value
(to be stringified) or raw bytes (for the binary upload). -/
inductive ReqData where
  | jsonData (j : Json) : ReqData
  | binData (bytes : List Nat) : ReqData
deriving Repr, BEq

/-- The body finally handed to `fetch`:
`rawBody ? data : data ? JSON.stringify(data) : undefined`. -/
inductive FetchBody where
  | undefinedBody : FetchBody
  | stringBody (s : String) : FetchBody
  | rawData (d : ReqData) : FetchBody
deriving Repr, BEq

/-- The argument record of one `fetch` call issued by
`RedmineClient.request`. -/
structure HttpRequest where
  method : HttpMethod
  url : String
  headers : List (String × String)
  body : FetchBody
  timeoutMs : Nat
deriving Repr

/-- Models the object spread `{ ...this.headers, ...customHeaders }`:
keys of `base` in order with values overridden by `custom`, followed by
the keys of `custom` not present in `base`. -/
def mergeHeaders (base custom : List (String × String)) : List (String × String) :=
  (base.map fun kv =>
    match custom.find? (fun kv2 => kv2.1 == kv.1) with
    | some kv2 => (kv.1, kv2.2)
    | none => kv)
  ++ custom.filter (fun kv => !(base.any (fun kv0 => kv0.1 == kv.1)))

/-- Computes the `fetch` body exactly as
`rawBody ? data : data ? JSON.stringify(data) : undefined`
(`src/redmine-api.ts`, line 47). -/
def fetchBodyOf (data : Option ReqData) (rawBody : Bool) : FetchBody :=
  if rawBody then
    match data with
    | some d => .rawData d
    | none => .undefinedBody
  else
    match data with
    | some (.jsonData j) => .stringBody (Json.stringify j)
    | some (.binData bytes) =>
        .stringBody (Json.stringify (Json.obj
          ((List.range bytes.length).zip bytes |>.map fun p => (toString p.1, Json.num p.2))))
    | none => .undefinedBody

/-- The request constructed by `RedmineClient.request`
(`src/redmine-api.ts`, lines 39-52): URL is the stored base URL
concatenated with the endpoint, headers are the stored headers overridden
by the custom headers, body per `fetchBodyOf`, timeout from the stored
timeout.  The stored `insecureTls` flag is not consulted anywhere. -/
def buildRequest (st : RedmineClient) (endpoint : String) (method : HttpMethod)
    (data : Option ReqData) (customHeaders : List (String × String))
    (rawBody : Bool) : HttpRequest :=
  { method := method
    url := st.baseUrl ++ endpoint
    headers := mergeHeaders st.headers customHeaders
    body := fetchBodyOf data rawBody
    timeoutMs := st.timeout }

/-- A received HTTP response as observed by `RedmineClient.request`:
status code, whether the content-type header mentions
`application/json`, the body text, and (when JSON) the parsed body. -/
structure HttpResponse where
  status : Nat
  contentTypeJson : Bool
  bodyText : String
  bodyJson : Json
deriving Repr

/-- Models `response.ok` of `fetch`: status in the range 200-299. -/
def responseOk (status : Nat) : Bool :=
  decide (200 ≤ status) && decide (status ≤ 299)

/-- The error message thrown for a non-ok response
(`src/redmine-api.ts`, line 56): `HTTP ${response.status}: ${errorText}`. -/
def httpErrorMessage (status : Nat) (errorText : String) : String :=
  "HTTP " ++ toString status ++ ": " ++ errorText

/-- The outcome of `RedmineClient.request` given the received response
(`src/redmine-api.ts`, lines 54-64): a non-ok response throws the
`httpErrorMessage`; an ok response is parsed as JSON when the content type
says JSON, otherwise returned as raw text. -/
def requestResult (resp : HttpResponse) : Except String Json :=
  if responseOk resp.status then
    if resp.contentTypeJson then .ok resp.bodyJson
    else .ok (.str resp.bodyText)
  else
    .error (httpErrorMessage resp.status resp.bodyText)

/-- `SearchIssuesParams` from `src/types.ts`: all fields optional. -/
structure SearchIssuesParams where
  project_id : Option Int := none
  status_id : Option Int := none
  tracker_id : Option Int := none
  assigned_to_id : Option Int := none
  query : Option String := none
  limit : Option Int := none
  offset : Option Int := none
deriving Repr, DecidableEq

/-- Whether a character is left unescaped by JavaScript
`encodeURIComponent`: ASCII letters and digits and `- _ . ! ~ * ( )`
and the apostrophe (code points checked numerically). -/
def uriUnreserved (c : Char) : Bool :=
  let n := c.toNat
  (decide (65 ≤ n) && decide (n ≤ 90)) ||
  (decide (97 ≤ n) && decide (n ≤ 122)) ||
  (decide (48 ≤ n) && decide (n ≤ 57)) ||
  [45, 95, 46, 33, 126, 42, 39, 40, 41].contains n

/-- Uppercase hexadecimal digit for a value below 16. -/
def hexDigit (n : Nat) : Char :=
  if n < 10 then Char.ofNat (48 + n) else Char.ofNat (55 + n)

/-- UTF-8 byte sequence of one character. -/
def utf8Bytes (c : Char) : List Nat :=
  let n := c.toNat
  if n < 128 then [n]
  else if n < 2048 then [192 + n / 64, 128 + n % 64]
  else if n < 65536 then [224 + n / 4096, 128 + (n / 64) % 64, 128 + n % 64]
  else [240 + n / 262144, 128 + (n / 4096) % 64, 128 + (n / 64) % 64, 128 + n % 64]

/-- Percent-encoding of a single byte, uppercase hex. -/
def percentByte (b : Nat) : String :=
  "%" ++ String.singleton (hexDigit (b / 16)) ++ String.singleton (hexDigit (b % 16))

/-- Models JavaScript `encodeURIComponent`: unreserved characters pass
through, every other character is percent-encoded byte by byte (UTF-8). -/
def encodeURIComponent (s : String) : String :=
  String.join (s.data.map fun c =>
    if uriUnreserved c then String.singleton c
    else String.join ((utf8Bytes c).map percentByte))

/-- The key/value entries of a `SearchIssuesParams` object in property
order (`Object.entries(params)` for the `find_issues` schema order),
with `String(value)` already applied to the defined values. -/
def searchEntries (p : SearchIssuesParams) : List (String × Option String) :=
  [("project_id", p.project_id.map toString),
   ("status_id", p.status_id.map toString),
   ("tracker_id", p.tracker_id.map toString),
   ("assigned_to_id", p.assigned_to_id.map toString),
   ("query", p.query),
   ("limit", p.limit.map toString),
   ("offset", p.offset.map toString)]

/-- The `key=value` pieces of the search query string
(`src/redmine-api.ts`, lines 93-96): entries with a defined value, each
rendered as `key=encodeURIComponent(String(value))`. -/
def queryParts (p : SearchIssuesParams) : List String :=
  (searchEntries p).filterMap fun kv =>
    kv.2.map fun v => kv.1 ++ "=" ++ encodeURIComponent v

/-- The query string built by `RedmineClient.searchIssues`: the parts
joined with `&`. -/
def searchQueryString (p : SearchIssuesParams) : String :=
  String.intercalate "&" (queryParts p)

/-- The endpoint passed to `request` by `searchIssues`
(`src/redmine-api.ts`, line 98): `issues.json?${queryParams}`. -/
def searchIssuesEndpoint (p : SearchIssuesParams) : String :=
  "issues.json?" ++ searchQueryString p

/-- Base64 value of one character of the standard alphabet; `none` for
every other character (the Node decoder skips those). -/
def base64Val (c : Char) : Option Nat :=
  let n := c.toNat
  if decide (65 ≤ n) && decide (n ≤ 90) then some (n - 65)
  else if decide (97 ≤ n) && decide (n ≤ 122) then some (n - 97 + 26)
  else if decide (48 ≤ n) && decide (n ≤ 57) then some (n - 48 + 52)
  else if n = 43 then some 62
  else if n = 47 then some 63
  else none

/-- Decodes a list of 6-bit values into bytes, four values to three
bytes, with trailing groups of two or three values yielding one or two
bytes (base64 padding semantics). -/
def base64Bytes : List Nat → List Nat
  | a :: b :: c :: d :: rest =>
      (a * 4 + b / 16) :: ((b % 16) * 16 + c / 4) :: ((c % 4) * 64 + d) :: base64Bytes rest
  | [a, b, c] => [a * 4 + b / 16, (b % 16) * 16 + c / 4]
  | [a, b] => [a * 4 + b / 16]
  | _ => []

/-- Models `Buffer.from(s, "base64")` (the forgiving Node decoder):
characters outside the alphabet are skipped, the 6-bit values are packed
into bytes. -/
def base64decode (s : String) : List Nat :=
  base64Bytes (s.data.filterMap base64Val)

/-- `RedmineUpload` from `src/types.ts`: upload token plus optional
attachment metadata. -/
structure RedmineUpload where
  token : String
  filename : Option String := none
  content_type : Option String := none
  description : Option String := none
deriving Repr, DecidableEq

/-- `CreateIssueParams` from `src/types.ts`, with `project_id` kept
optional because the `create_issue` tool schema declares it optional and
the handler fills it in. -/
structure CreateIssueParams where
  project_id : Option Int := none
  subject : String
  description : Option String := none
  tracker_id : Option Int := none
  status_id : Option Int := none
  priority_id : Option Int := none
  assigned_to_id : Option Int := none
  start_date : Option String := none
  due_date : Option String := none
deriving Repr, DecidableEq

/-- `UpdateIssueParams` from `src/types.ts`. -/
structure UpdateIssueParams where
  subject : Option String := none
  description : Option String := none
  tracker_id : Option Int := none
  status_id : Option Int := none
  priority_id : Option Int := none
  assigned_to_id : Option Int := none
  start_date : Option String := none
  due_date : Option String := none
deriving Repr, DecidableEq

/-- One call made against the `RedmineClient` instance, with its
arguments; tool handlers are modelled to return the list of calls they
issue, in order. -/
inductive ClientCall where
  | getIssue (id : Int) : ClientCall
  | createIssue (params : CreateIssueParams) : ClientCall
  | updateIssue (id : Int) (params : UpdateIssueParams) : ClientCall
  | searchIssues (params : SearchIssuesParams) : ClientCall
  | getProjects : ClientCall
  | getTrackers : ClientCall
  | getIssueStatuses : ClientCall
  | getUsers : ClientCall
  | getIssuePriorities : ClientCall
  | uploadBinary (bytes : List Nat) : ClientCall
  | addIssueNote (id : Int) (notes : String) : ClientCall
  | transitionIssue (id : Int) (statusId : Int) (notes : Option String) : ClientCall
  | addAttachment (id : Int) (uploads : List RedmineUpload) : ClientCall
deriving Repr, DecidableEq

/-- The parsed body of `GET issues/{id}.json`: an object with an `issue`
field. -/
structure IssueResponse where
  issue : Json
deriving Repr, BEq

/-- The parsed body of `POST uploads.json`: `{ upload: { token } }`. -/
structure UploadResponse where
  upload : RedmineUpload
deriving Repr, DecidableEq

/-- The parsed body of `GET projects.json`. -/
structure ProjectsResponse where
  projects : Json
deriving Repr, BEq

/-- The parsed body of `GET trackers.json`. -/
structure TrackersResponse where
  trackers : Json
deriving Repr, BEq

/-- The parsed body of `GET issue_statuses.json`. -/
structure StatusesResponse where
  issue_statuses : Json
deriving Repr, BEq

/-- The parsed body of `GET users.json`. -/
structure UsersResponse where
  users : Json
deriving Repr, BEq

/-- The parsed body of `GET enumerations/issue_priorities.json`. -/
structure PrioritiesResponse where
  issue_priorities : Json
deriving Repr, BEq

/-- The behaviour of the remote tracker as seen through the client: one
outcome per client method.  `Except.error m` is a thrown error with
message `m` (a rejected promise); `Except.ok` is a fulfilled call. -/
structure Env where
  getIssue : Int → Except String IssueResponse
  createIssue : CreateIssueParams → Except String IssueResponse
  updateIssue : Int → UpdateIssueParams → Except String Unit
  searchIssues : SearchIssuesParams → Except String Json
  getProjects : Except String ProjectsResponse
  getTrackers : Except String TrackersResponse
  getIssueStatuses : Except String StatusesResponse
  getUsers : Except String UsersResponse
  getIssuePriorities : Except String PrioritiesResponse
  uploadBinary : List Nat → Except String UploadResponse
  addIssueNote : Int → String → Except String Unit
  transitionIssue : Int → Int → Option String → Except String Unit
  addAttachment : Int → List RedmineUpload → Except String Unit

/-- The response envelope every tool handler returns: the text of the
single `content` entry, and the `isError` flag (absent in the source on
success, modelled as `false`). -/
structure ToolResult where
  text : String
  isError : Bool
deriving Repr, DecidableEq

/-- The success envelope: `content: [{type: "text", text}]`, no error
flag. -/
def okEnvelope (text : String) : ToolResult :=
  { text := text, isError := false }

/-- The error envelope built in every handler's catch block:
`Error: ${error.message}` with `isError: true`. -/
def errEnvelope (message : String) : ToolResult :=
  { text := "Error: " ++ message, isError := true }

/-- The validation-failure envelope of `create_issue` when no project id
is available (`src/index.ts`, lines 250-259). -/
def missingProjectIdEnvelope : ToolResult :=
  { text := "Missing required project_id. Set REDMINE_DEFAULT_PROJECT_ID or pass project_id explicitly."
    isError := true }

/-- The `create_issue` handler (`src/index.ts`, lines 242-281): when the
arguments lack a project id, substitute the configured default; when no
default exists either, return the validation-failure envelope without
calling the client.  Otherwise call `createIssue` and wrap the outcome. -/
def createIssueHandler (defaultProjectId : Option Int) (env : Env)
    (args : CreateIssueParams) : List ClientCall × ToolResult :=
  let params : CreateIssueParams :=
    match args.project_id, defaultProjectId with
    | none, some d => { args with project_id := some d }
    | _, _ => args
  match args.project_id, defaultProjectId with
  | none, none => ([], missingProjectIdEnvelope)
  | _, _ =>
    match env.createIssue params with
    | .ok resp => ([ClientCall.createIssue params], okEnvelope (Json.stringify resp.issue))
    | .error e => ([ClientCall.createIssue params], errEnvelope e)

/-- The `read_issue` handler (`src/index.ts`, lines 385-406): fetch the
issue, wrap it, catch errors into the error envelope. -/
def readIssueHandler (env : Env) (issue_id : Int) : List ClientCall × ToolResult :=
  match env.getIssue issue_id with
  | .ok resp => ([ClientCall.getIssue issue_id], okEnvelope (Json.stringify resp.issue))
  | .error e => ([ClientCall.getIssue issue_id], errEnvelope e)

/-- The `update_issue` handler (`src/index.ts`, lines 284-320): update,
then re-fetch the issue and return it; any thrown error becomes the error
envelope. -/
def updateIssueHandler (env : Env) (issue_id : Int) (params : UpdateIssueParams) :
    List ClientCall × ToolResult :=
  match env.updateIssue issue_id params with
  | .error e => ([ClientCall.updateIssue issue_id params], errEnvelope e)
  | .ok _ =>
    match env.getIssue issue_id with
    | .ok resp =>
        ([ClientCall.updateIssue issue_id params, ClientCall.getIssue issue_id],
         okEnvelope (Json.stringify resp.issue))
    | .error e =>
        ([ClientCall.updateIssue issue_id params, ClientCall.getIssue issue_id],
         errEnvelope e)

/-- The `transition_issue` handler (`src/index.ts`, lines 438-468). -/
def transitionIssueHandler (env : Env) (issue_id status_id : Int)
    (notes : Option String) : List ClientCall × ToolResult :=
  match env.transitionIssue issue_id status_id notes with
  | .error e => ([ClientCall.transitionIssue issue_id status_id notes], errEnvelope e)
  | .ok _ =>
    match env.getIssue issue_id with
    | .ok resp =>
        ([ClientCall.transitionIssue issue_id status_id notes, ClientCall.getIssue issue_id],
         okEnvelope (Json.stringify resp.issue))
    | .error e =>
        ([ClientCall.transitionIssue issue_id status_id notes, ClientCall.getIssue issue_id],
         errEnvelope e)

/-- The `find_issues` handler (`src/index.ts`, lines 471-502). -/
def findIssuesHandler (env : Env) (params : SearchIssuesParams) :
    List ClientCall × ToolResult :=
  match env.searchIssues params with
  | .ok resp => ([ClientCall.searchIssues params], okEnvelope (Json.stringify resp))
  | .error e => ([ClientCall.searchIssues params], errEnvelope e)

/-- Arguments of the `add_attachment` tool (`src/index.ts`, lines
507-513). -/
structure AddAttachmentArgs where
  issue_id : Int
  filename : String
  data_base64 : String
  content_type : Option String := none
  description : Option String := none
deriving Repr, DecidableEq

/-- The `add_attachment` handler (`src/index.ts`, lines 505-552): decode
the base64 payload, upload the bytes, attach the returned token together
with filename, content type and description, re-fetch the issue and
return it; any thrown error becomes the error envelope. -/
def addAttachmentHandler (env : Env) (a : AddAttachmentArgs) :
    List ClientCall × ToolResult :=
  let binaryData := base64decode a.data_base64
  match env.uploadBinary binaryData with
  | .error e => ([ClientCall.uploadBinary binaryData], errEnvelope e)
  | .ok uploadResponse =>
    let upload : RedmineUpload :=
      { token := uploadResponse.upload.token
        filename := some a.filename
        content_type := a.content_type
        description := a.description }
    match env.addAttachment a.issue_id [upload] with
    | .error e =>
        ([ClientCall.uploadBinary binaryData, ClientCall.addAttachment a.issue_id [upload]],
         errEnvelope e)
    | .ok _ =>
      match env.getIssue a.issue_id with
      | .ok resp =>
          ([ClientCall.uploadBinary binaryData, ClientCall.addAttachment a.issue_id [upload],
            ClientCall.getIssue a.issue_id],
           okEnvelope (Json.stringify resp.issue))
      | .error e =>
          ([ClientCall.uploadBinary binaryData, ClientCall.addAttachment a.issue_id [upload],
            ClientCall.getIssue a.issue_id],
           errEnvelope e)

/-- The metadata object assembled by `get_metadata`
(`src/index.ts`, lines 577-583). -/
def metadataJson (projects trackers statuses users priorities : Json) : Json :=
  Json.obj [("projects", projects), ("trackers", trackers), ("statuses", statuses),
            ("users", users), ("priorities", priorities)]

/-- The `get_metadata` handler (`src/index.ts`, lines 555-601): fan out
to projects, trackers, statuses and users; a failure of any of those four
fails the whole call.  Priorities are fetched best-effort: a failure is
replaced by an empty list (`src/index.ts`, lines 570-575). -/
def getMetadataHandler (env : Env) : List ClientCall × ToolResult :=
  let fanout : List ClientCall :=
    [ClientCall.getProjects, ClientCall.getTrackers,
     ClientCall.getIssueStatuses, ClientCall.getUsers]
  match env.getProjects, env.getTrackers, env.getIssueStatuses, env.getUsers with
  | .ok pr, .ok tr, .ok st, .ok us =>
    let prio : PrioritiesResponse :=
      match env.getIssuePriorities with
      | .ok p => p
      | .error _ => { issue_priorities := Json.arr [] }
    (fanout ++ [ClientCall.getIssuePriorities],
     okEnvelope (Json.stringify
       (metadataJson pr.projects tr.trackers st.issue_statuses us.users prio.issue_priorities)))
  | .error e, _, _, _ => (fanout, errEnvelope e)
  | _, .error e, _, _ => (fanout, errEnvelope e)
  | _, _, .error e, _ => (fanout, errEnvelope e)
  | _, _, _, .error e => (fanout, errEnvelope e)

/-- A runtime JavaScript value arriving as a tool argument, as far as the
zod schemas distinguish them. -/
inductive JsVal where
  | num (n : Int) : JsVal
  | str (s : String) : JsVal
  | boolV (b : Bool) : JsVal
  | nullV : JsVal
  | undef : JsVal
deriving Repr, DecidableEq

/-- Models `z.number()`: accepts every number, nothing else. -/
def zNumber : JsVal → Bool
  | .num _ => true
  | _ => false

/-- Models `z.string()`. -/
def zString : JsVal → Bool
  | .str _ => true
  | _ => false

/-- Models `.optional()`: an absent value passes, otherwise the base
schema decides. -/
def zOptional (base : JsVal → Bool) : JsVal → Bool
  | .undef => true
  | v => base v

/-- The `read_issue` argument schema (`src/index.ts`, line 385):
`{ issue_id: z.number() }`. -/
def readIssueSchema (issue_id : JsVal) : Bool :=
  zNumber issue_id

/-- The `transition_issue` argument schema (`src/index.ts`, lines
440-444): `issue_id` and `status_id` numbers, `notes` an optional
string. -/
def transitionIssueSchema (issue_id status_id notes : JsVal) : Bool :=
  zNumber issue_id && zNumber status_id && zOptional zString notes

/-- The client construction performed at server startup
(`src/index.ts`, lines 216-219): the config object passed to the
constructor carries only `url` and `apiKey`; `timeout` and `insecureTls`
are not supplied. -/
def serverRedmineClient (redmineUrl redmineApiKey : String) : RedmineClient :=
  RedmineClient.init { url := redmineUrl, apiKey := redmineApiKey }

/-- A concrete tracker behaviour with every call succeeding and the
priorities endpoint failing, used to instantiate universally quantified
statements. -/
def envOk : Env :=
  { getIssue := fun _ => .ok { issue := Json.null }
    createIssue := fun _ => .ok { issue := Json.null }
    updateIssue := fun _ _ => .ok ()
    searchIssues := fun _ => .ok Json.null
    getProjects := .ok { projects := Json.arr [] }
    getTrackers := .ok { trackers := Json.arr [] }
    getIssueStatuses := .ok { issue_statuses := Json.arr [] }
    getUsers := .ok { users := Json.arr [] }
    getIssuePriorities := .error (httpErrorMessage 404 "Not Found")
    uploadBinary := fun _ => .ok { upload := { token := "tok" } }
    addIssueNote := fun _ _ => .ok ()
    transitionIssue := fun _ _ _ => .ok ()
    addAttachment := fun _ _ => .ok () }

/-- A concrete tracker behaviour where fetching an issue fails with an
HTTP 404 error message, as produced by `RedmineClient.request`. -/
def envIssue404 : Env :=
  { envOk with getIssue := fun _ => .error (httpErrorMessage 404 "Not Found") }

/-- A well-formed response envelope: either the success envelope around
a serialized JSON value, or the error envelope around some message. -/
def isEnvelope (r : ToolResult) : Prop :=
  (∃ j, r = okEnvelope (Json.stringify j)) ∨ (∃ m, r = errEnvelope m)

/-- Concrete `create_issue` arguments without a project id. -/
def args0 : CreateIssueParams := { subject := "Test" }

/-- Concrete `add_attachment` arguments. -/
def attachArgs0 : AddAttachmentArgs :=
  { issue_id := 1, filename := "hello.txt", data_base64 := "aGk=" }

/-- Fuses the two error-prefix literals in front of a string. -/
theorem errorHttpFuse (rest : String) :
    "Error: " ++ ("HTTP " ++ rest) = "Error: HTTP " ++ rest := by
  have h : ("Error: " ++ "HTTP " : String) = "Error: HTTP " := by decide
  rw [← String.append_assoc, h]

/-- Claim C1: a `create_issue` invocation whose arguments lack a project
id sends the client a creation request carrying the configured default
project id when one exists; when none is configured it returns the error
envelope (error flag set, human-readable message) and makes no client
call. -/
theorem claim_C1 (dflt : Option Int) (env : Env) (args : CreateIssueParams)
    (h : args.project_id = none) :
    (createIssueHandler dflt env args).1 =
      (match dflt with
       | some d => [ClientCall.createIssue { args with project_id := some d }]
       | none => [])
    ∧ (dflt = none →
        (createIssueHandler dflt env args).2 = missingProjectIdEnvelope
        ∧ (createIssueHandler dflt env args).2.isError = true) := by
  cases dflt with
  | none =>
      refine ⟨?_, fun _ => ⟨?_, ?_⟩⟩ <;>
        simp [createIssueHandler, h, missingProjectIdEnvelope]
  | some d =>
      refine ⟨?_, fun hc => by cases hc⟩
      simp only [createIssueHandler, h]
      cases env.createIssue { args with project_id := some d } <;> rfl

/-- Witness for C1 at the concrete input `args0` with no default
configured. -/
theorem claim_C1_witness :
    (createIssueHandler none envOk args0).1 =
      (match (none : Option Int) with
       | some d => [ClientCall.createIssue { args0 with project_id := some d }]
       | none => [])
    ∧ ((none : Option Int) = none →
        (createIssueHandler none envOk args0).2 = missingProjectIdEnvelope
        ∧ (createIssueHandler none envOk args0).2.isError = true) :=
  claim_C1 none envOk args0 rfl

/-- Claim C2: a non-2xx HTTP response makes `RedmineClient.request` fail
with the message `HTTP <status>: <body>`, and a handler receiving that
failure returns the error envelope whose text carries both the status
code and the body text; no exception escapes the handler. -/
theorem claim_C2 (status : Nat) (body : String) (ct : Bool) (j : Json)
    (env : Env) (i : Int)
    (h : responseOk status = false)
    (henv : env.getIssue i = .error (httpErrorMessage status body)) :
    requestResult { status := status, contentTypeJson := ct, bodyText := body, bodyJson := j }
      = .error (httpErrorMessage status body)
    ∧ (readIssueHandler env i).2.isError = true
    ∧ (readIssueHandler env i).2.text = "Error: " ++ httpErrorMessage status body
    ∧ ∃ pre mid, (readIssueHandler env i).2.text = pre ++ toString status ++ (mid ++ body) := by
  refine ⟨?_, ?_, ?_, "Error: HTTP ", ": ", ?_⟩
  · simp [requestResult, h]
  · simp [readIssueHandler, henv, errEnvelope]
  · simp [readIssueHandler, henv, errEnvelope]
  · simp only [readIssueHandler, henv, errEnvelope, httpErrorMessage, String.append_assoc]
    exact errorHttpFuse (toString status ++ (": " ++ body))

/-- Witness for C2 at a concrete 404 response. -/
theorem claim_C2_witness :
    requestResult { status := 404, contentTypeJson := false, bodyText := "Not Found", bodyJson := Json.null }
      = .error (httpErrorMessage 404 "Not Found")
    ∧ (readIssueHandler envIssue404 1).2.isError = true
    ∧ (readIssueHandler envIssue404 1).2.text = "Error: " ++ httpErrorMessage 404 "Not Found"
    ∧ ∃ pre mid, (readIssueHandler envIssue404 1).2.text
        = pre ++ toString (404 : Nat) ++ (mid ++ "Not Found") :=
  claim_C2 404 "Not Found" false Json.null envIssue404 1 (by decide) rfl

/-- Claim C3: the query string of a search call is built from exactly the
defined parameter fields: it is the `&`-join of the parts, and a string
is a part precisely when it is `key=encodeURIComponent(value)` for an
entry whose value is defined; absent fields contribute nothing. -/
theorem claim_C3 (p : SearchIssuesParams) :
    searchIssuesEndpoint p = "issues.json?" ++ String.intercalate "&" (queryParts p)
    ∧ ∀ s, s ∈ queryParts p ↔
        ∃ k v, (k, some v) ∈ searchEntries p ∧ s = k ++ "=" ++ encodeURIComponent v := by
  refine ⟨rfl, fun s => ?_⟩
  simp only [queryParts, List.mem_filterMap]
  constructor
  · rintro ⟨⟨k, ov⟩, hmem, hmap⟩
    rcases Option.map_eq_some'.mp hmap with ⟨v, hov, hs⟩
    exact ⟨k, v, hov ▸ hmem, hs.symm⟩
  · rintro ⟨k, v, hmem, hs⟩
    exact ⟨(k, some v), hmem, by simp [hs]⟩

/-- Claim C4: for every outcome of the client calls, the `update_issue`
and `add_attachment` handlers return either the success envelope around a
serialized JSON value or the error envelope around the error's message;
being total functions, they let no exception escape. -/
theorem claim_C4 : ∀ (env : Env) (i : Int) (p : UpdateIssueParams) (a : AddAttachmentArgs),
    isEnvelope (updateIssueHandler env i p).2 ∧ isEnvelope (addAttachmentHandler env a).2 := by
  intro env i p a
  constructor
  · unfold updateIssueHandler
    cases h1 : env.updateIssue i p with
    | error e => exact Or.inr ⟨e, rfl⟩
    | ok u =>
      cases h2 : env.getIssue i with
      | ok r => exact Or.inl ⟨r.issue, rfl⟩
      | error e => exact Or.inr ⟨e, rfl⟩
  · cases h1 : env.uploadBinary (base64decode a.data_base64) with
    | error e => exact Or.inr ⟨e, by simp [addAttachmentHandler, h1]⟩
    | ok u =>
      cases h2 : env.addAttachment a.issue_id
          [{ token := u.upload.token, filename := some a.filename,
             content_type := a.content_type, description := a.description }] with
      | error e => exact Or.inr ⟨e, by simp [addAttachmentHandler, h1, h2]⟩
      | ok _ =>
        cases h3 : env.getIssue a.issue_id with
        | ok r => exact Or.inl ⟨r.issue, by simp [addAttachmentHandler, h1, h2, h3]⟩
        | error e => exact Or.inr ⟨e, by simp [addAttachmentHandler, h1, h2, h3]⟩

/-- Claim C5: when projects, trackers, statuses and users all succeed and
the priorities fetch fails, `get_metadata` still returns the success
envelope whose priorities list is empty while the other four are the
fetched values; the error flag is not set. -/
theorem claim_C5 (env : Env) (pr : ProjectsResponse) (tr : TrackersResponse)
    (st : StatusesResponse) (us : UsersResponse) (em : String)
    (hp : env.getProjects = .ok pr) (ht : env.getTrackers = .ok tr)
    (hs : env.getIssueStatuses = .ok st) (hu : env.getUsers = .ok us)
    (hf : env.getIssuePriorities = .error em) :
    getMetadataHandler env =
      ([ClientCall.getProjects, ClientCall.getTrackers, ClientCall.getIssueStatuses,
        ClientCall.getUsers, ClientCall.getIssuePriorities],
       okEnvelope (Json.stringify
         (metadataJson pr.projects tr.trackers st.issue_statuses us.users (Json.arr []))))
    ∧ (getMetadataHandler env).2.isError = false := by
  constructor
  · simp [getMetadataHandler, hp, ht, hs, hu, hf]
  · simp [getMetadataHandler, hp, ht, hs, hu, hf, okEnvelope]

/-- Witness for C5 with the concrete environment whose priorities
endpoint answers 404. -/
theorem claim_C5_witness :
    getMetadataHandler envOk =
      ([ClientCall.getProjects, ClientCall.getTrackers, ClientCall.getIssueStatuses,
        ClientCall.getUsers, ClientCall.getIssuePriorities],
       okEnvelope (Json.stringify
         (metadataJson (Json.arr []) (Json.arr []) (Json.arr []) (Json.arr []) (Json.arr []))))
    ∧ (getMetadataHandler envOk).2.isError = false :=
  claim_C5 envOk { projects := Json.arr [] } { trackers := Json.arr [] }
    { issue_statuses := Json.arr [] } { users := Json.arr [] }
    (httpErrorMessage 404 "Not Found") rfl rfl rfl rfl rfl

/-- Claim C6: a successful `add_attachment` invocation decodes the base64
payload, uploads the bytes, attaches the returned token together with the
given filename, content type and description, re-fetches the issue —
exactly in that order — and returns the re-fetched issue state. -/
theorem claim_C6 (env : Env) (a : AddAttachmentArgs) (u : UploadResponse)
    (r : IssueResponse)
    (h1 : env.uploadBinary (base64decode a.data_base64) = .ok u)
    (h2 : env.addAttachment a.issue_id
        [{ token := u.upload.token, filename := some a.filename,
           content_type := a.content_type, description := a.description }] = .ok ())
    (h3 : env.getIssue a.issue_id = .ok r) :
    addAttachmentHandler env a =
      ([ClientCall.uploadBinary (base64decode a.data_base64),
        ClientCall.addAttachment a.issue_id
          [{ token := u.upload.token, filename := some a.filename,
             content_type := a.content_type, description := a.description }],
        ClientCall.getIssue a.issue_id],
       okEnvelope (Json.stringify r.issue)) := by
  simp [addAttachmentHandler, h1, h2, h3]

/-- Witness for C6 at concrete arguments (payload `aGk=`, i.e. `hi`). -/
theorem claim_C6_witness :
    addAttachmentHandler envOk attachArgs0 =
      ([ClientCall.uploadBinary (base64decode attachArgs0.data_base64),
        ClientCall.addAttachment attachArgs0.issue_id
          [{ token := "tok", filename := some attachArgs0.filename,
             content_type := attachArgs0.content_type,
             description := attachArgs0.description }],
        ClientCall.getIssue attachArgs0.issue_id],
       okEnvelope (Json.stringify Json.null)) :=
  claim_C6 envOk attachArgs0 { upload := { token := "tok" } } { issue := Json.null }
    rfl rfl rfl

/-- Counterexample to claim C7 as stated: the `read_issue` schema accepts
the id 0 (not a positive integer) — validation succeeds instead of
failing — and the handler then issues the HTTP fetch for issue 0; the
`transition_issue` schema likewise accepts a negative id. -/
theorem claim_C7_counterexample :
    readIssueSchema (JsVal.num 0) = true
    ∧ transitionIssueSchema (JsVal.num (-1)) (JsVal.num 2) JsVal.undef = true
    ∧ (readIssueHandler envOk 0).1 = [ClientCall.getIssue 0] := by
  refine ⟨rfl, rfl, rfl⟩

/-- Claim C7 as amended: the schemas check numeric ids only for being
numbers — every number, including zero and negative values, passes
validation, and the HTTP request is then issued with that id. -/
theorem claim_C7_amended : ∀ (n : Int) (env : Env) (s : Int),
    readIssueSchema (JsVal.num n) = true
    ∧ transitionIssueSchema (JsVal.num n) (JsVal.num s) JsVal.undef = true
    ∧ (readIssueHandler env n).1 = [ClientCall.getIssue n] := by
  intro n env s
  refine ⟨rfl, rfl, ?_⟩
  unfold readIssueHandler
  cases env.getIssue n <;> rfl

/-- Claim C8 (the code): the client constructed at server startup is
passed neither the timeout nor the TLS flag, so it always runs with the
default timeout 30000 and TLS verification on, whatever was configured in
the environment. -/
theorem claim_C8_bug : ∀ (redmineUrl redmineApiKey : String),
    (serverRedmineClient redmineUrl redmineApiKey).timeout = 30000
    ∧ (serverRedmineClient redmineUrl redmineApiKey).insecureTls = false :=
  fun _ _ => ⟨rfl, rfl⟩

/-- Claim C9: the stored base URL always ends with a slash, and every
request URL is exactly that base URL concatenated with the endpoint —
for every configuration and every client operation. -/
theorem claim_C9 (config : RedmineConfig) :
    jsEndsWith (RedmineClient.init config).baseUrl "/" = true
    ∧ ∀ endpoint method data custom raw,
        (buildRequest (RedmineClient.init config) endpoint method data custom raw).url
          = (RedmineClient.init config).baseUrl ++ endpoint := by
  refine ⟨?_, fun _ _ _ _ _ => rfl⟩
  unfold RedmineClient.init
  by_cases h : jsEndsWith config.url "/" = true
  · simp [h]
  · simp only [Bool.not_eq_true] at h
    simp only [h, Bool.false_eq_true, if_false]
    unfold jsEndsWith
    rw [List.isSuffixOf]
    simp

/-- Claim C10: the HTTP request built by the client is identical whether
the `insecureTls` flag is true or false — both when flipping the stored
flag and when flipping it in the construction-time configuration. -/
theorem claim_C10 :
    (∀ (st : RedmineClient) (b : Bool) endpoint method data custom raw,
      buildRequest { st with insecureTls := b } endpoint method data custom raw
        = buildRequest st endpoint method data custom raw)
    ∧ (∀ (config : RedmineConfig) (ob : Option Bool) endpoint method data custom raw,
      buildRequest (RedmineClient.init { config with insecureTls := ob }) endpoint method data custom raw
        = buildRequest (RedmineClient.init config) endpoint method data custom raw) :=
  ⟨fun _ _ _ _ _ _ _ => rfl, fun _ _ _ _ _ _ _ => rfl⟩
